import Mathlib

/-!
Shallow embedding of the arousal-integration-validation core:
`src/utils/arousal.py` (ArousalMonitor, ArousalIntegrator) and
`src/environment/social_gridworld.py` (SimpleSocialGridWorld).
Python floats are modelled as exact rationals (and reals where the code
uses `exp`); the numpy seeded generator is modelled as a deterministic
pseudorandom stream.
-/

namespace ArousalValidation

/-- ArousalMonitor state: configuration fields set in `__init__`
(`domain`, `base`, `surprise_sens`, `salience_sens`, `stress_thresh`,
`time_sens`) plus the mutable tracking state (`current_arousal` and the
four append-only history lists). -/
structure ArousalMonitor where
  domain : String
  base : ℚ
  surprise_sens : ℚ
  salience_sens : ℚ
  stress_thresh : ℚ
  time_sens : ℚ
  current_arousal : ℚ
  arousal_history : List ℚ
  surprise_component : List ℚ
  salience_component : List ℚ
  stress_component : List ℚ
deriving DecidableEq

/-- `ArousalMonitor.__init__`: stores the configuration, sets
`current_arousal = base_arousal`, and starts all four histories empty. -/
def mkMonitor (domain_name : String) (base_arousal surprise_sensitivity
    salience_sensitivity stress_threshold time_pressure_factor : ℚ) :
    ArousalMonitor :=
  { domain := domain_name
    base := base_arousal
    surprise_sens := surprise_sensitivity
    salience_sens := salience_sensitivity
    stress_thresh := stress_threshold
    time_sens := time_pressure_factor
    current_arousal := base_arousal
    arousal_history := []
    surprise_component := []
    salience_component := []
    stress_component := [] }

/-- `np.clip(x, lo, hi)` for scalars. -/
def clip (x lo hi : ℚ) : ℚ := min (max x lo) hi

/-- `ArousalMonitor.compute_arousal`: returns the arousal value together
with the updated monitor (the Python method mutates `self`). -/
def ArousalMonitor.compute_arousal (m : ArousalMonitor)
    (prediction_error reward_magnitude time_remaining max_time : ℚ) :
    ℚ × ArousalMonitor :=
  let surprise_boost := 1 + |prediction_error| * m.surprise_sens
  let salience_boost := 1 + |reward_magnitude| * m.salience_sens
  let time_fraction := time_remaining / max_time
  let time_pressure := 1 + (1 - time_fraction) * m.time_sens
  let raw_arousal := m.base * surprise_boost * salience_boost * time_pressure
  let stress_penalty :=
    if m.stress_thresh < raw_arousal then
      let excess := (raw_arousal - m.stress_thresh) / m.stress_thresh
      1 / (1 + excess ^ 2)
    else 1
  let arousal := clip (raw_arousal * stress_penalty) 0 1
  (arousal,
    { m with
      surprise_component := m.surprise_component ++ [surprise_boost]
      salience_component := m.salience_component ++ [salience_boost]
      stress_component := m.stress_component ++ [stress_penalty]
      current_arousal := arousal
      arousal_history := m.arousal_history ++ [arousal] })

/-- `ArousalMonitor.get_learning_rate_multiplier`: `base_lr * (1 + arousal)`,
with `current_arousal` used when no arousal argument is supplied. -/
def ArousalMonitor.get_learning_rate_multiplier (m : ArousalMonitor)
    (base_lr : ℚ) (arousal : Option ℚ) : ℚ :=
  let arousal_value := arousal.getD m.current_arousal
  base_lr * (1 + arousal_value)

/-- `ArousalMonitor.get_exploration_bonus`:
`clip(base_epsilon * (1 + arousal), 0, 1)`. -/
def ArousalMonitor.get_exploration_bonus (m : ArousalMonitor)
    (base_epsilon : ℚ) (arousal : Option ℚ) : ℚ :=
  let arousal_value := arousal.getD m.current_arousal
  clip (base_epsilon * (1 + arousal_value)) 0 1

/-- `ArousalMonitor.reset`: sets `current_arousal` back to `base`. -/
def ArousalMonitor.reset (m : ArousalMonitor) : ArousalMonitor :=
  { m with current_arousal := m.base }

/-- `ArousalIntegrator.weighted_integration`: softmax over the two arousal
values scaled by `1/temperature`. -/
noncomputable def weighted_integration
    (arousal_state arousal_agent temperature : ℝ) : ℝ × ℝ :=
  let e_state := Real.exp (arousal_state / temperature)
  let e_agent := Real.exp (arousal_agent / temperature)
  (e_state / (e_state + e_agent), e_agent / (e_state + e_agent))

/-- `ArousalIntegrator.gated_integration`: winner-take-all with a dead zone. -/
def gated_integration (arousal_state arousal_agent threshold : ℚ) : ℚ × ℚ :=
  let diff := |arousal_state - arousal_agent|
  if diff < threshold then (0.5, 0.5)
  else if arousal_agent < arousal_state then (1, 0)
  else (0, 1)

/-- Modelled from the spec: the environment owns a single deterministic
pseudorandom source seeded once at construction and never reseeded
(spec, Concurrency and Resource Model). `np.random.default_rng(seed)` is
outside the repository; it is modelled as a linear congruential stream
on natural numbers. -/
def rngNext (s : Nat) : Nat := (s * 1103515245 + 12345) % 4294967296

/-- `rng.integers(0, n)`: draws one value in `[0, n)` and advances the
stream. -/
def rngIntegers (s : Nat) (n : Nat) : Nat × Nat :=
  (rngNext s % n, rngNext s)

/-- `Action` enum. -/
inductive Action where
  | up
  | down
  | left
  | right
  | interact
deriving DecidableEq

/-- `NPCMood` enum. -/
inductive NPCMood where
  | friendly
  | neutral
  | hostile
deriving DecidableEq, BEq

/-- `list(NPCMood)` in enum declaration order. -/
def allMoods : List NPCMood := [NPCMood.friendly, NPCMood.neutral, NPCMood.hostile]

/-- `GridState` dataclass. -/
structure GridState where
  agent_pos : Int × Int
  goal_pos : Int × Int
  npc_pos : Int × Int
  npc_mood_actual : NPCMood
  npc_mood_estimate : Option NPCMood
  interaction_count : Nat
  steps : Nat
deriving DecidableEq

/-- The `info` dict of a transition: the two per-domain error magnitudes. -/
structure StepInfo where
  state_error : ℚ
  agent_error : ℚ
deriving DecidableEq

/-- `Transition` NamedTuple. -/
structure Transition where
  state : GridState
  action : Action
  reward : ℚ
  next_state : GridState
  done : Bool
  info : StepInfo
deriving DecidableEq

/-- Constructor arguments of `SimpleSocialGridWorld.__init__` other than
the seed. -/
structure EnvConfig where
  size : Int
  npc_position : Int × Int
  goal_position : Int × Int
  mood_change_frequency : Nat
  max_steps : Nat
deriving DecidableEq

/-- Mutable state of a `SimpleSocialGridWorld` instance. -/
structure Env where
  size : Int
  npc_pos : Int × Int
  goal_pos : Int × Int
  mood_change_freq : Nat
  max_steps : Nat
  rng : Nat
  episode_count : Nat
  current_mood : NPCMood
  state : Option GridState
  total_rewards : List ℚ
deriving DecidableEq

/-- `SimpleSocialGridWorld.__init__`: records configuration, seeds the
random stream, starts with `episode_count = 0`, `current_mood = NEUTRAL`,
`state = None`, empty reward history. -/
def mkEnv (cfg : EnvConfig) (seed : Nat) : Env :=
  { size := cfg.size
    npc_pos := cfg.npc_position
    goal_pos := cfg.goal_position
    mood_change_freq := cfg.mood_change_frequency
    max_steps := cfg.max_steps
    rng := seed
    episode_count := 0
    current_mood := NPCMood.neutral
    state := none
    total_rewards := [] }

/-- `_update_npc_mood`: removes the current mood from the mood list and
draws one of the remaining moods via `rng.choice`. -/
def updateNpcMood (cur : NPCMood) (rng : Nat) : NPCMood × Nat :=
  let moods := allMoods.erase cur
  let r := rngNext rng
  let selected_index := r % moods.length
  (moods.getD selected_index cur, r)

/-- The `while True` rejection loop of `reset`: draws grid positions until
one differs from both the goal and the NPC position. The Python loop has
no bound; it is modelled with explicit fuel, `none` meaning the loop did
not finish within the fuel (which the unbounded Python loop never
signals). -/
def drawAgentPos (goal npc : Int × Int) (size : Int) :
    Nat → Nat → Option ((Int × Int) × Nat)
  | 0, _ => none
  | fuel + 1, rng =>
    let d1 := rngIntegers rng size.toNat
    let d2 := rngIntegers d1.2 size.toNat
    let agent_pos : Int × Int := ((d1.1 : Int), (d2.1 : Int))
    if agent_pos ≠ goal ∧ agent_pos ≠ npc then some (agent_pos, d2.2)
    else drawAgentPos goal npc size fuel d2.2

/-- `SimpleSocialGridWorld.reset`: increments the episode counter,
updates the NPC mood every `mood_change_freq` episodes, draws a fresh
agent position avoiding goal and NPC, and installs the initial state. -/
def Env.reset (env : Env) : Option (GridState × Env) :=
  let episode_count := env.episode_count + 1
  let moodStep :=
    if episode_count % env.mood_change_freq == 0 then
      updateNpcMood env.current_mood env.rng
    else (env.current_mood, env.rng)
  match drawAgentPos env.goal_pos env.npc_pos env.size 1000 moodStep.2 with
  | none => none
  | some (agent_pos, rng2) =>
    let s : GridState :=
      { agent_pos := agent_pos
        goal_pos := env.goal_pos
        npc_pos := env.npc_pos
        npc_mood_actual := moodStep.1
        npc_mood_estimate := none
        interaction_count := 0
        steps := 0 }
    some (s, { env with
      episode_count := episode_count
      current_mood := moodStep.1
      rng := rng2
      state := some s })

/-- `_action_to_delta`. -/
def actionToDelta (a : Action) : Int × Int :=
  match a with
  | Action.up => (0, -1)
  | Action.down => (0, 1)
  | Action.left => (-1, 0)
  | Action.right => (1, 0)
  | Action.interact => (0, 0)

/-- `_is_valid_position`: inside `[0, size)` in both coordinates. -/
def isValidPosition (env : Env) (pos : Int × Int) : Prop :=
  0 ≤ pos.1 ∧ pos.1 < env.size ∧ 0 ≤ pos.2 ∧ pos.2 < env.size

instance (env : Env) (pos : Int × Int) : Decidable (isValidPosition env pos) := by
  unfold isValidPosition
  infer_instance

/-- `_is_adjacent_to_npc`: Manhattan distance to `self.npc_pos` equals 1. -/
def isAdjacentToNpc (env : Env) (pos : Int × Int) : Prop :=
  |pos.1 - env.npc_pos.1| + |pos.2 - env.npc_pos.2| = 1

instance (env : Env) (pos : Int × Int) : Decidable (isAdjacentToNpc env pos) := by
  unfold isAdjacentToNpc
  infer_instance

/-- Per-branch outcome of `step` before the goal and timeout checks:
the accumulated reward, done flag, info dict, the post-move position and
the new social fields. -/
structure StepOutcome where
  reward : ℚ
  done : Bool
  info : StepInfo
  new_pos : Int × Int
  new_mood_estimate : Option NPCMood
  new_interaction_count : Nat
deriving DecidableEq

/-- The action-processing part of `step` (step cost, INTERACT branch,
movement branch with wall collision). -/
def stepCore (env : Env) (s : GridState) (a : Action) : StepOutcome :=
  let reward : ℚ := 0 - 0.1
  if a = Action.interact then
    if isAdjacentToNpc env s.agent_pos then
      let mood := s.npc_mood_actual
      let reward :=
        if mood = NPCMood.hostile then reward - 5.0
        else if mood = NPCMood.friendly then reward + 1.0
        else reward + 0.0
      let info : StepInfo :=
        if mood = NPCMood.hostile then
          { state_error := 0.0, agent_error := 5.0 }
        else { state_error := 0.0, agent_error := 0.0 }
      let new_interaction_count := s.interaction_count + 1
      let done :=
        if 3 ≤ new_interaction_count ∧ mood = NPCMood.hostile then true
        else false
      { reward := reward, done := done, info := info
        new_pos := s.agent_pos, new_mood_estimate := some mood
        new_interaction_count := new_interaction_count }
    else
      { reward := reward - 0.5, done := false
        info := { state_error := 0.5, agent_error := 0.0 }
        new_pos := s.agent_pos
        new_mood_estimate := s.npc_mood_estimate
        new_interaction_count := s.interaction_count }
  else
    let d := actionToDelta a
    let cand : Int × Int := (s.agent_pos.1 + d.1, s.agent_pos.2 + d.2)
    if isValidPosition env cand then
      { reward := reward, done := false
        info := { state_error := 0.0, agent_error := 0.0 }
        new_pos := cand
        new_mood_estimate := s.npc_mood_estimate
        new_interaction_count := s.interaction_count }
    else
      { reward := reward - 1.0, done := false
        info := { state_error := 1.0, agent_error := 0.0 }
        new_pos := s.agent_pos
        new_mood_estimate := s.npc_mood_estimate
        new_interaction_count := s.interaction_count }

/-- The tail of `step`: goal check on both the pre-move position
(`next_pos`, never reassigned in the source) and the post-move position,
timeout check, construction of the next state and the transition, and
the reward-history side effect. -/
def stepFinish (env : Env) (s : GridState) (a : Action) (o : StepOutcome) :
    Transition × Env :=
  let next_pos := s.agent_pos
  let goalHit := next_pos = env.goal_pos ∨ o.new_pos = env.goal_pos
  let reward := if goalHit then o.reward + 10.0 else o.reward
  let done1 := if goalHit then true else o.done
  let new_steps := s.steps + 1
  let done := if env.max_steps ≤ new_steps then true else done1
  let next_state : GridState :=
    { agent_pos := o.new_pos
      goal_pos := s.goal_pos
      npc_pos := s.npc_pos
      npc_mood_actual := s.npc_mood_actual
      npc_mood_estimate := o.new_mood_estimate
      interaction_count := o.new_interaction_count
      steps := new_steps }
  let tr : Transition :=
    { state := s, action := a, reward := reward, next_state := next_state
      done := done, info := o.info }
  (tr, { env with
    state := some next_state
    total_rewards :=
      if done then env.total_rewards ++ [reward] else env.total_rewards })

/-- Error message of `step` called before `reset`. -/
def stepErrorMsg : String := "Must call reset() before step()"

/-- `SimpleSocialGridWorld.step`: raises `RuntimeError` when `state` is
`None`, otherwise processes the action and returns the transition while
replacing the internal state. -/
def Env.step (env : Env) (a : Action) : Except String (Transition × Env) :=
  match env.state with
  | none => Except.error stepErrorMsg
  | some s => Except.ok (stepFinish env s a (stepCore env s a))

/-- One driver command: either `reset()` or `step(a)`. -/
inductive Cmd where
  | reset
  | act (a : Action)
deriving DecidableEq

/-- What the driver observes from one command: the state returned by
`reset` (or `none` on fuel exhaustion of the modelled draw loop), or the
full transition / error returned by `step`. -/
inductive CmdOutput where
  | resetOut (s : Option GridState)
  | stepOut (r : Except String Transition)

set_option maxRecDepth 4000 in
/-- Drives one environment instance through a command list, collecting
every observable output. -/
def runCmds : Env → List Cmd → List CmdOutput
  | _, [] => []
  | env, Cmd.reset :: cs =>
    match env.reset with
    | none => CmdOutput.resetOut none :: runCmds env cs
    | some (s, env') => CmdOutput.resetOut (some s) :: runCmds env' cs
  | env, Cmd.act a :: cs =>
    match env.step a with
    | Except.error e => CmdOutput.stepOut (Except.error e) :: runCmds env cs
    | Except.ok (tr, env') => CmdOutput.stepOut (Except.ok tr) :: runCmds env' cs

/-- One legal in-episode step of the driver: a `step` call whose
transition is not `done`. -/
def liveTrans (env env2 : Env) : Prop :=
  ∃ a tr, Env.step env a = Except.ok (tr, env2) ∧ tr.done = false

/-- Environments in the RUNNING phase on which the driver may legally
call `step`: those just produced by a `reset()`, followed by any number
of `step` calls whose transitions were not `done` (the spec leaves
`step` after `done` to the driver to avoid). -/
def LiveRun (env2 : Env) : Prop :=
  ∃ env s env1, Env.reset env = some (s, env1) ∧
    Relation.ReflTransGen liveTrans env1 env2

/-- Monitors reachable through the public operations: construction,
`compute_arousal`, and `reset` (`get_statistics` and the two multiplier
getters are pure queries and return no monitor). -/
inductive MonitorReached : ArousalMonitor → Prop where
  | init (name : String) (b ss sal st ts : ℚ) :
      MonitorReached (mkMonitor name b ss sal st ts)
  | compute (m : ArousalMonitor) (pe rm t mt : ℚ) :
      MonitorReached m → MonitorReached (m.compute_arousal pe rm t mt).2
  | restart (m : ArousalMonitor) :
      MonitorReached m → MonitorReached m.reset

/-- Domain label used for concrete monitor instances below. -/
def domainState : String := "state"

/-- A monitor built with the default constructor arguments
(`base_arousal=0.3`, `surprise_sensitivity=0.5`, `salience_sensitivity=0.3`,
`stress_threshold=0.8`, `time_pressure_factor=0.2`). -/
def mW : ArousalMonitor := mkMonitor domainState 0.3 0.5 0.3 0.8 0.2

/-- Concrete 2x2 configuration used as a witness environment: NPC at the
origin, goal in the opposite corner, mood redrawn every episode. -/
def cfgW : EnvConfig :=
  { size := 2, npc_position := (0, 0), goal_position := (1, 1),
    mood_change_frequency := 1, max_steps := 50 }

/-- The state produced by `reset()` on `mkEnv cfgW 0` (the first draw of
the modelled stream lands on `(0,1)` and the episode-1 mood redraw picks
HOSTILE). -/
def sW1 : GridState :=
  { agent_pos := (0, 1), goal_pos := (1, 1), npc_pos := (0, 0),
    npc_mood_actual := NPCMood.hostile, npc_mood_estimate := none,
    interaction_count := 0, steps := 0 }

/-- The environment produced alongside `sW1` by that same `reset()`. -/
def envW1 : Env :=
  { size := 2, npc_pos := (0, 0), goal_pos := (1, 1), mood_change_freq := 1,
    max_steps := 50, rng := 2802067423, episode_count := 1,
    current_mood := NPCMood.hostile, state := some sW1, total_rewards := [] }

/-- State after interacting with the hostile NPC from `sW1`. -/
def sW2 : GridState :=
  { agent_pos := (0, 1), goal_pos := (1, 1), npc_pos := (0, 0),
    npc_mood_actual := NPCMood.hostile,
    npc_mood_estimate := some NPCMood.hostile,
    interaction_count := 1, steps := 1 }

/-- Transition returned by `step(INTERACT)` on `envW1`. -/
def trW2 : Transition :=
  { state := sW1, action := Action.interact, reward := -5.1,
    next_state := sW2, done := false,
    info := { state_error := 0, agent_error := 5 } }

/-- Environment after `step(INTERACT)` on `envW1`. -/
def envW2 : Env := { envW1 with state := some sW2 }

/-- State after colliding with the left wall from `sW1`. -/
def sW3 : GridState := { sW1 with steps := 1 }

/-- Transition returned by `step(LEFT)` on `envW1` (wall collision). -/
def trW3 : Transition :=
  { state := sW1, action := Action.left, reward := -1.1,
    next_state := sW3, done := false,
    info := { state_error := 1, agent_error := 0 } }

/-- Environment after `step(LEFT)` on `envW1`. -/
def envW3 : Env := { envW1 with state := some sW3 }

/-- A concrete driver script for the determinism witness. -/
def cmdsW : List Cmd :=
  [Cmd.reset, Cmd.act Action.interact, Cmd.act Action.right,
   Cmd.act Action.up, Cmd.reset, Cmd.act Action.down]

theorem clip_bounds (x : ℚ) : 0 ≤ clip x 0 1 ∧ clip x 0 1 ≤ 1 :=
  ⟨le_min (le_max_right x 0) zero_le_one, min_le_right _ 1⟩

/-- C9: `ArousalMonitor.reset` sets `current_arousal` to the configured
base arousal and leaves every other field — the four history lists and
all six configuration fields — exactly as they were. -/
theorem monitor_reset_frame (m : ArousalMonitor) :
    m.reset.current_arousal = m.base ∧
    m.reset.arousal_history = m.arousal_history ∧
    m.reset.surprise_component = m.surprise_component ∧
    m.reset.salience_component = m.salience_component ∧
    m.reset.stress_component = m.stress_component ∧
    m.reset.domain = m.domain ∧
    m.reset.base = m.base ∧
    m.reset.surprise_sens = m.surprise_sens ∧
    m.reset.salience_sens = m.salience_sens ∧
    m.reset.stress_thresh = m.stress_thresh ∧
    m.reset.time_sens = m.time_sens :=
  ⟨rfl, rfl, rfl, rfl, rfl, rfl, rfl, rfl, rfl, rfl, rfl⟩

/-- C6: `gated_integration` returns `(0.5, 0.5)` inside the dead zone,
`(1, 0)` when the difference reaches the threshold and the state arousal
is strictly larger, `(0, 1)` otherwise; and equal arousals with a
positive threshold always land inside the dead zone. -/
theorem gated_integration_spec (a b T : ℚ) :
    (|a - b| < T → gated_integration a b T = (0.5, 0.5)) ∧
    (T ≤ |a - b| → b < a → gated_integration a b T = (1, 0)) ∧
    (T ≤ |a - b| → ¬b < a → gated_integration a b T = (0, 1)) ∧
    (0 < T → gated_integration a a T = (0.5, 0.5)) := by
  refine ⟨fun h => ?_, fun h h2 => ?_, fun h h2 => ?_, fun h => ?_⟩
  · simp [gated_integration, h]
  · simp [gated_integration, not_lt.mpr h, h2]
  · simp [gated_integration, not_lt.mpr h, h2]
  · simp [gated_integration, h]

theorem gated_integration_spec_witness :
    (|(1 : ℚ) - 0| < 2 ∧ gated_integration 1 0 2 = (0.5, 0.5)) ∧
    ((1 : ℚ) ≤ |3 - 0| ∧ (0 : ℚ) < 3 ∧ gated_integration 3 0 1 = (1, 0)) ∧
    ((1 : ℚ) ≤ |0 - 3| ∧ ¬(3 : ℚ) < 0 ∧ gated_integration 0 3 1 = (0, 1)) ∧
    ((0 : ℚ) < 1 ∧ gated_integration 0.7 0.7 1 = (0.5, 0.5)) :=
  ⟨⟨by norm_num, (gated_integration_spec 1 0 2).1 (by norm_num)⟩,
   ⟨by norm_num, by norm_num,
    (gated_integration_spec 3 0 1).2.1 (by norm_num) (by norm_num)⟩,
   ⟨by norm_num, by norm_num,
    (gated_integration_spec 0 3 1).2.2.1 (by norm_num) (by norm_num)⟩,
   ⟨by norm_num, (gated_integration_spec 0.7 0.7 1).2.2.2 (by norm_num)⟩⟩

/-- C5: for every pair of arousal inputs and positive temperature,
`weighted_integration` returns softmax weights that sum to 1 and lie
strictly between 0 and 1. -/
theorem weighted_integration_spec (a b t : ℝ) (_ht : 0 < t) :
    (weighted_integration a b t).1 + (weighted_integration a b t).2 = 1 ∧
    0 < (weighted_integration a b t).1 ∧ (weighted_integration a b t).1 < 1 ∧
    0 < (weighted_integration a b t).2 ∧ (weighted_integration a b t).2 < 1 := by
  have he1 : 0 < Real.exp (a / t) := Real.exp_pos _
  have he2 : 0 < Real.exp (b / t) := Real.exp_pos _
  have hsum : 0 < Real.exp (a / t) + Real.exp (b / t) := by positivity
  refine ⟨?_, ?_, ?_, ?_, ?_⟩
  · show Real.exp (a / t) / _ + Real.exp (b / t) / _ = 1
    rw [div_add_div_same, div_self hsum.ne']
  · exact div_pos he1 hsum
  · exact (div_lt_one hsum).mpr (lt_add_of_pos_right _ he2)
  · exact div_pos he2 hsum
  · exact (div_lt_one hsum).mpr (lt_add_of_pos_left _ he1)

theorem weighted_integration_spec_witness :
    (0 : ℝ) < 1 ∧
    ((weighted_integration 0.3 0.7 1).1 + (weighted_integration 0.3 0.7 1).2 = 1 ∧
     0 < (weighted_integration 0.3 0.7 1).1 ∧ (weighted_integration 0.3 0.7 1).1 < 1 ∧
     0 < (weighted_integration 0.3 0.7 1).2 ∧ (weighted_integration 0.3 0.7 1).2 < 1) :=
  ⟨by norm_num, weighted_integration_spec 0.3 0.7 1 (by norm_num)⟩

/-- C7: on a freshly constructed environment, before any `reset()`,
every `step(action)` call fails immediately with the
must-call-reset error and produces no transition. -/
theorem step_requires_reset (cfg : EnvConfig) (seed : Nat) (a : Action) :
    (mkEnv cfg seed).step a = Except.error stepErrorMsg := rfl

/-- C1: with positive `max_time` the arousal returned by
`compute_arousal` always lies in `[0,1]`; and with zero prediction
error, zero reward magnitude and full time remaining, a monitor whose
base arousal is at most the stress threshold and lies in `[0,1]` gets
back exactly its base arousal, the surprise/salience boosts recorded in
the histories both being 1 and the stress penalty not engaging
(recorded as 1). -/
theorem compute_arousal_spec (m : ArousalMonitor) (pe rm t mt : ℚ)
    (hmt : 0 < mt) :
    (0 ≤ (m.compute_arousal pe rm t mt).1 ∧
      (m.compute_arousal pe rm t mt).1 ≤ 1) ∧
    (pe = 0 → rm = 0 → t = mt → m.base ≤ m.stress_thresh →
      0 ≤ m.base → m.base ≤ 1 →
      (m.compute_arousal pe rm t mt).1 = m.base ∧
      (m.compute_arousal pe rm t mt).2.surprise_component
        = m.surprise_component ++ [1] ∧
      (m.compute_arousal pe rm t mt).2.salience_component
        = m.salience_component ++ [1] ∧
      (m.compute_arousal pe rm t mt).2.stress_component
        = m.stress_component ++ [1]) := by
  constructor
  · exact clip_bounds _
  · intro hpe hrm ht hbt hb0 hb1
    subst hpe; subst hrm; subst ht
    have hfrac : t / t = 1 := div_self (ne_of_gt hmt)
    have hpen : ¬m.stress_thresh < m.base := not_lt.mpr hbt
    simp only [ArousalMonitor.compute_arousal, abs_zero, zero_mul, add_zero,
      mul_one, hfrac, sub_self, if_neg hpen]
    refine ⟨?_, trivial, trivial, trivial⟩
    unfold clip
    rw [max_eq_left hb0, min_eq_left hb1]

theorem compute_arousal_spec_witness :
    (0 : ℚ) < 50 ∧
    ((0 : ℚ) = 0 ∧ mW.base ≤ mW.stress_thresh ∧ 0 ≤ mW.base ∧ mW.base ≤ 1) ∧
    (0 ≤ (mW.compute_arousal 0 0 50 50).1 ∧
      (mW.compute_arousal 0 0 50 50).1 ≤ 1) ∧
    (mW.compute_arousal 0 0 50 50).1 = mW.base :=
  have h := compute_arousal_spec mW 0 0 50 50 (by norm_num)
  ⟨by norm_num, ⟨rfl, by norm_num [mW, mkMonitor], by norm_num [mW, mkMonitor],
      by norm_num [mW, mkMonitor]⟩, h.1,
    (h.2 rfl rfl rfl (by norm_num [mW, mkMonitor]) (by norm_num [mW, mkMonitor])
      (by norm_num [mW, mkMonitor])).1⟩

/-- C10: the four history lists always have equal length: all four are
empty at construction, `compute_arousal` appends exactly one element to
each, and `reset` (the only other operation returning a monitor) leaves
all four untouched. -/
theorem histories_parallel_spec :
    (∀ m : ArousalMonitor, MonitorReached m →
      m.arousal_history.length = m.surprise_component.length ∧
      m.arousal_history.length = m.salience_component.length ∧
      m.arousal_history.length = m.stress_component.length) ∧
    (∀ (name : String) (b ss sal st ts : ℚ),
      (mkMonitor name b ss sal st ts).arousal_history = [] ∧
      (mkMonitor name b ss sal st ts).surprise_component = [] ∧
      (mkMonitor name b ss sal st ts).salience_component = [] ∧
      (mkMonitor name b ss sal st ts).stress_component = []) ∧
    (∀ (m : ArousalMonitor) (pe rm t mt : ℚ),
      (m.compute_arousal pe rm t mt).2.arousal_history.length
        = m.arousal_history.length + 1 ∧
      (m.compute_arousal pe rm t mt).2.surprise_component.length
        = m.surprise_component.length + 1 ∧
      (m.compute_arousal pe rm t mt).2.salience_component.length
        = m.salience_component.length + 1 ∧
      (m.compute_arousal pe rm t mt).2.stress_component.length
        = m.stress_component.length + 1) ∧
    (∀ m : ArousalMonitor,
      m.reset.arousal_history = m.arousal_history ∧
      m.reset.surprise_component = m.surprise_component ∧
      m.reset.salience_component = m.salience_component ∧
      m.reset.stress_component = m.stress_component) := by
  refine ⟨?_, ?_, ?_, ?_⟩
  · intro m h
    induction h with
    | init name b ss sal st ts => exact ⟨rfl, rfl, rfl⟩
    | compute m pe rm t mt _ ih =>
      obtain ⟨h1, h2, h3⟩ := ih
      simp only [ArousalMonitor.compute_arousal, List.length_append,
        List.length_cons, List.length_nil]
      omega
    | restart m _ ih => exact ih
  · intro name b ss sal st ts
    exact ⟨rfl, rfl, rfl, rfl⟩
  · intro m pe rm t mt
    simp [ArousalMonitor.compute_arousal]
  · intro m
    exact ⟨rfl, rfl, rfl, rfl⟩

theorem histories_parallel_spec_witness :
    MonitorReached mW ∧
    mW.arousal_history.length = mW.surprise_component.length ∧
    mW.arousal_history.length = mW.salience_component.length ∧
    mW.arousal_history.length = mW.stress_component.length :=
  have hr : MonitorReached mW :=
    MonitorReached.init domainState 0.3 0.5 0.3 0.8 0.2
  ⟨hr, histories_parallel_spec.1 mW hr⟩

theorem updateNpcMood_ne (cur : NPCMood) (r : Nat) :
    (updateNpcMood cur r).1 ≠ cur := by
  have h2 := Nat.mod_two_eq_zero_or_one (rngNext r)
  cases cur <;>
    · simp only [updateNpcMood, allMoods, List.erase, List.length]
      rcases h2 with h | h <;> simp_all <;> decide

theorem drawAgentPos_spec (goal npc : Int × Int) (size : Int) :
    ∀ (fuel rng : Nat) (pos : Int × Int) (r : Nat),
      drawAgentPos goal npc size fuel rng = some (pos, r) →
      pos ≠ goal ∧ pos ≠ npc := by
  intro fuel
  induction fuel with
  | zero => intro rng pos r h; simp [drawAgentPos] at h
  | succ n ih =>
    intro rng pos r h
    rw [drawAgentPos] at h
    split at h
    · rename_i hc
      obtain ⟨h1, h2⟩ := Prod.mk.injEq .. ▸ Option.some.inj h
      subst h1
      exact hc
    · exact ih _ _ _ h

theorem reset_some_spec (env : Env) (s : GridState) (env2 : Env)
    (h : env.reset = some (s, env2)) :
    env2.state = some s ∧
    s.agent_pos ≠ env.goal_pos ∧
    s.agent_pos ≠ env.npc_pos ∧
    s.goal_pos = env.goal_pos ∧
    s.npc_pos = env.npc_pos ∧
    s.npc_mood_actual = env2.current_mood ∧
    s.npc_mood_estimate = none ∧
    s.interaction_count = 0 ∧
    s.steps = 0 ∧
    env2.goal_pos = env.goal_pos ∧
    env2.npc_pos = env.npc_pos ∧
    env2.size = env.size ∧
    env2.max_steps = env.max_steps ∧
    env2.mood_change_freq = env.mood_change_freq ∧
    env2.episode_count = env.episode_count + 1 ∧
    env2.current_mood =
      (if (env.episode_count + 1) % env.mood_change_freq == 0 then
        (updateNpcMood env.current_mood env.rng).1
      else env.current_mood) := by
  rw [Env.reset] at h
  split at h
  · exact absurd h (by simp)
  · rename_i pos rng2 hdraw
    have hpos := drawAgentPos_spec env.goal_pos env.npc_pos env.size _ _ _ _ hdraw
    obtain ⟨h1, h2⟩ := Prod.mk.injEq .. ▸ Option.some.inj h
    subst h1
    subst h2
    refine ⟨rfl, hpos.1, hpos.2, rfl, rfl, rfl, rfl, rfl, rfl, rfl, rfl, rfl,
      rfl, rfl, rfl, ?_⟩
    split <;> rfl

theorem step_ok_cases (env : Env) (a : Action) (r : Transition × Env)
    (h : env.step a = Except.ok r) :
    ∃ s, env.state = some s ∧ r = stepFinish env s a (stepCore env s a) := by
  rw [Env.step] at h
  split at h
  · exact absurd h (by simp)
  · rename_i s hs
    exact ⟨s, hs, (Except.ok.inj h).symm⟩

theorem stepFinish_next_state (env : Env) (s : GridState) (a : Action)
    (o : StepOutcome) :
    (stepFinish env s a o).1.next_state =
      { agent_pos := o.new_pos, goal_pos := s.goal_pos, npc_pos := s.npc_pos,
        npc_mood_actual := s.npc_mood_actual,
        npc_mood_estimate := o.new_mood_estimate,
        interaction_count := o.new_interaction_count, steps := s.steps + 1 } ∧
    (stepFinish env s a o).1.state = s ∧
    (stepFinish env s a o).1.action = a ∧
    (stepFinish env s a o).1.info = o.info ∧
    (stepFinish env s a o).2.state = some (stepFinish env s a o).1.next_state ∧
    (stepFinish env s a o).2.goal_pos = env.goal_pos ∧
    (stepFinish env s a o).2.npc_pos = env.npc_pos ∧
    (stepFinish env s a o).2.size = env.size ∧
    (stepFinish env s a o).2.max_steps = env.max_steps ∧
    (stepFinish env s a o).2.mood_change_freq = env.mood_change_freq ∧
    (stepFinish env s a o).2.episode_count = env.episode_count ∧
    (stepFinish env s a o).2.current_mood = env.current_mood :=
  ⟨rfl, rfl, rfl, rfl, rfl, rfl, rfl, rfl, rfl, rfl, rfl, rfl⟩

theorem stepFinish_noGoal (env : Env) (s : GridState) (a : Action)
    (o : StepOutcome) (hng : s.agent_pos ≠ env.goal_pos)
    (hng2 : o.new_pos ≠ env.goal_pos) :
    (stepFinish env s a o).1.reward = o.reward ∧
    (stepFinish env s a o).1.done =
      (if env.max_steps ≤ s.steps + 1 then true else o.done) := by
  have hgoal : ¬(s.agent_pos = env.goal_pos ∨ o.new_pos = env.goal_pos) := by
    rintro (h | h) <;> [exact hng h; exact hng2 h]
  constructor <;> simp [stepFinish, hgoal]

theorem stepFinish_done_of_done (env : Env) (s : GridState) (a : Action)
    (o : StepOutcome) (h : o.done = true) :
    (stepFinish env s a o).1.done = true := by
  simp only [stepFinish, h]
  split <;> simp

theorem stepFinish_done_false (env : Env) (s : GridState) (a : Action)
    (o : StepOutcome) (h : (stepFinish env s a o).1.done = false) :
    o.new_pos ≠ env.goal_pos := by
  intro hgoal
  have htrue : (stepFinish env s a o).1.done = true := by
    simp [stepFinish, hgoal]
  rw [h] at htrue
  exact Bool.false_ne_true htrue

theorem liveTrans_spec (envb envc : Env) (h : liveTrans envb envc) :
    ∃ s2, envc.state = some s2 ∧ s2.agent_pos ≠ envc.goal_pos := by
  obtain ⟨a, tr, hstep, hdone⟩ := h
  obtain ⟨s, hsb, hr⟩ := step_ok_cases envb a (tr, envc) hstep
  have heq1 : tr = (stepFinish envb s a (stepCore envb s a)).1 :=
    congrArg Prod.fst hr
  have heq2 : envc = (stepFinish envb s a (stepCore envb s a)).2 :=
    congrArg Prod.snd hr
  have hsf := stepFinish_next_state envb s a (stepCore envb s a)
  have hng2 : (stepCore envb s a).new_pos ≠ envb.goal_pos :=
    stepFinish_done_false envb s a _ (heq1 ▸ hdone)
  refine ⟨(stepFinish envb s a (stepCore envb s a)).1.next_state, ?_, ?_⟩
  · rw [heq2]
    exact hsf.2.2.2.2.1
  · rw [heq2, hsf.2.2.2.2.2.1, hsf.1]
    exact hng2

theorem liveRun_state_spec (env : Env) (h : LiveRun env) :
    ∃ s, env.state = some s ∧ s.agent_pos ≠ env.goal_pos := by
  obtain ⟨env0, s0, env1, hres, htrail⟩ := h
  induction htrail with
  | refl =>
    have hr := reset_some_spec env0 s0 env1 hres
    exact ⟨s0, hr.1, hr.2.2.2.2.2.2.2.2.2.1 ▸ hr.2.1⟩
  | tail _ hlast _ =>
    exact liveTrans_spec _ _ hlast

/-- C2: in every reachable RUNNING state with the agent
Manhattan-adjacent to a hostile NPC, `step(INTERACT)` yields a total
reward of at most `-5.1` (the `-0.1` step cost plus the `-5.0` hostile
penalty), an `agent_error` of `5.0`, reveals HOSTILE as the new mood
estimate, increments the interaction count, and ends the episode when
that incremented count reaches 3. -/
theorem hostile_interaction_spec (env : Env) (s : GridState)
    (tr : Transition) (env2 : Env)
    (hlive : LiveRun env) (hs : env.state = some s)
    (hadj : isAdjacentToNpc env s.agent_pos)
    (hmood : s.npc_mood_actual = NPCMood.hostile)
    (hstep : env.step Action.interact = Except.ok (tr, env2)) :
    tr.reward ≤ -5.1 ∧
    tr.info.agent_error = 5 ∧
    tr.next_state.npc_mood_estimate = some NPCMood.hostile ∧
    tr.next_state.interaction_count = s.interaction_count + 1 ∧
    (3 ≤ s.interaction_count + 1 → tr.done = true) := by
  obtain ⟨s', hs', hng⟩ := liveRun_state_spec env hlive
  rw [hs] at hs'
  obtain rfl := Option.some.inj hs'
  obtain ⟨s'', hs'', hr⟩ := step_ok_cases env Action.interact (tr, env2) hstep
  rw [hs] at hs''
  obtain rfl := Option.some.inj hs''
  have heq1 : tr = (stepFinish env s Action.interact
      (stepCore env s Action.interact)).1 := congrArg Prod.fst hr
  have hsf := stepFinish_next_state env s Action.interact
    (stepCore env s Action.interact)
  have honp : (stepCore env s Action.interact).new_pos = s.agent_pos := by
    simp [stepCore, hadj]
  have hfin := stepFinish_noGoal env s Action.interact _ hng (honp ▸ hng)
  refine ⟨?_, ?_, ?_, ?_, ?_⟩
  · rw [heq1, hfin.1]
    simp [stepCore, hadj, hmood]
    norm_num
  · rw [heq1, hsf.2.2.2.1]
    simp [stepCore, hadj, hmood]
    norm_num
  · rw [heq1, hsf.1]
    simp [stepCore, hadj, hmood]
  · rw [heq1, hsf.1]
    simp [stepCore, hadj]
  · intro hcnt
    have hodone : (stepCore env s Action.interact).done = true := by
      simp [stepCore, hadj, hmood, hcnt]
    rw [heq1]
    exact stepFinish_done_of_done env s Action.interact _ hodone

theorem hostile_interaction_spec_witness :
    Env.step envW1 Action.interact = Except.ok (trW2, envW2) ∧
    LiveRun envW1 ∧ envW1.state = some sW1 ∧
    isAdjacentToNpc envW1 sW1.agent_pos ∧
    sW1.npc_mood_actual = NPCMood.hostile ∧
    trW2.reward ≤ -5.1 ∧ trW2.info.agent_error = 5 ∧
    trW2.next_state.npc_mood_estimate = some NPCMood.hostile ∧
    trW2.next_state.interaction_count = sW1.interaction_count + 1 :=
  have hres : (mkEnv cfgW 0).reset = some (sW1, envW1) := by decide
  have hlive : LiveRun envW1 :=
    ⟨mkEnv cfgW 0, sW1, envW1, hres, Relation.ReflTransGen.refl⟩
  have hstep : Env.step envW1 Action.interact = Except.ok (trW2, envW2) := by
    show Except.ok (stepFinish envW1 sW1 Action.interact
      (stepCore envW1 sW1 Action.interact)) = _
    norm_num [stepCore, stepFinish, isAdjacentToNpc, isValidPosition,
      envW1, sW1, trW2, envW2, sW2, actionToDelta]
  have h := hostile_interaction_spec envW1 sW1 trW2 envW2 hlive rfl
    (by decide) rfl hstep
  ⟨hstep, hlive, rfl, by decide, rfl, h.1, h.2.1, h.2.2.1, h.2.2.2.1⟩

/-- C3: from any RUNNING state whose agent is off the goal, a movement
action whose candidate position leaves the grid is absorbed: the agent
stays in place, `state_error = 1.0`, `agent_error = 0.0`, the total
reward is exactly `-1.1` (step cost plus collision penalty), and the
social fields are unchanged. -/
theorem wall_collision_spec (env : Env) (s : GridState) (a : Action)
    (tr : Transition) (env2 : Env)
    (hs : env.state = some s) (hng : s.agent_pos ≠ env.goal_pos)
    (ha : a ≠ Action.interact)
    (hinv : ¬isValidPosition env
      (s.agent_pos.1 + (actionToDelta a).1,
       s.agent_pos.2 + (actionToDelta a).2))
    (hstep : env.step a = Except.ok (tr, env2)) :
    tr.next_state.agent_pos = s.agent_pos ∧
    tr.info.state_error = 1 ∧
    tr.info.agent_error = 0 ∧
    tr.reward = -1.1 ∧
    tr.next_state.npc_mood_estimate = s.npc_mood_estimate ∧
    tr.next_state.interaction_count = s.interaction_count := by
  obtain ⟨s'', hs'', hr⟩ := step_ok_cases env a (tr, env2) hstep
  rw [hs] at hs''
  obtain rfl := Option.some.inj hs''
  have hco : stepCore env s a =
      { reward := 0 - 0.1 - 1.0, done := false,
        info := { state_error := 1.0, agent_error := 0.0 },
        new_pos := s.agent_pos, new_mood_estimate := s.npc_mood_estimate,
        new_interaction_count := s.interaction_count } := by
    simp [stepCore, ha, hinv]
  have heq1 : tr = (stepFinish env s a (stepCore env s a)).1 :=
    congrArg Prod.fst hr
  have hsf := stepFinish_next_state env s a (stepCore env s a)
  have hng2 : (stepCore env s a).new_pos ≠ env.goal_pos := by
    rw [hco]; exact hng
  have hfin := stepFinish_noGoal env s a (stepCore env s a) hng hng2
  refine ⟨?_, ?_, ?_, ?_, ?_, ?_⟩
  · rw [heq1, hsf.1, hco]
  · rw [heq1, hsf.2.2.2.1, hco]
    norm_num
  · rw [heq1, hsf.2.2.2.1, hco]
    norm_num
  · rw [heq1, hfin.1, hco]
    norm_num
  · rw [heq1, hsf.1, hco]
  · rw [heq1, hsf.1, hco]

theorem wall_collision_spec_witness :
    Env.step envW1 Action.left = Except.ok (trW3, envW3) ∧
    envW1.state = some sW1 ∧
    sW1.agent_pos ≠ envW1.goal_pos ∧
    Action.left ≠ Action.interact ∧
    ¬isValidPosition envW1
      (sW1.agent_pos.1 + (actionToDelta Action.left).1,
       sW1.agent_pos.2 + (actionToDelta Action.left).2) ∧
    trW3.next_state.agent_pos = sW1.agent_pos ∧
    trW3.info.state_error = 1 ∧ trW3.info.agent_error = 0 ∧
    trW3.reward = -1.1 :=
  have hstep : Env.step envW1 Action.left = Except.ok (trW3, envW3) := by
    show Except.ok (stepFinish envW1 sW1 Action.left
      (stepCore envW1 sW1 Action.left)) = _
    norm_num [stepCore, stepFinish, isAdjacentToNpc, isValidPosition,
      envW1, sW1, trW3, envW3, sW3, actionToDelta,
      show ¬(Action.left = Action.interact) from by decide]
  have h := wall_collision_spec envW1 sW1 Action.left trW3 envW3 rfl
    (by decide) (by decide) (by decide) hstep
  ⟨hstep, rfl, by decide, by decide, by decide, h.1, h.2.1, h.2.2.1,
    h.2.2.2.1⟩

/-- C8: the NPC mood never changes during a `step` (neither the
environment's `current_mood` nor the state's `npc_mood_actual`); on
`reset` the mood is unchanged unless the post-increment episode count is
divisible by the configured frequency, and when it is (with a positive
frequency) the newly drawn mood always differs from the prior one. -/
theorem mood_change_spec :
    (∀ (env : Env) (a : Action) (tr : Transition) (env2 : Env),
      env.step a = Except.ok (tr, env2) →
      env2.current_mood = env.current_mood ∧
      tr.next_state.npc_mood_actual = tr.state.npc_mood_actual) ∧
    (∀ (env : Env) (s : GridState) (env2 : Env),
      env.reset = some (s, env2) →
      s.npc_mood_actual = env2.current_mood ∧
      ((env.episode_count + 1) % env.mood_change_freq ≠ 0 →
        env2.current_mood = env.current_mood) ∧
      (0 < env.mood_change_freq →
        (env.episode_count + 1) % env.mood_change_freq = 0 →
        env2.current_mood ≠ env.current_mood)) := by
  constructor
  · intro env a tr env2 hstep
    obtain ⟨s, hs, hr⟩ := step_ok_cases env a (tr, env2) hstep
    have heq1 : tr = (stepFinish env s a (stepCore env s a)).1 :=
      congrArg Prod.fst hr
    have heq2 : env2 = (stepFinish env s a (stepCore env s a)).2 :=
      congrArg Prod.snd hr
    have hsf := stepFinish_next_state env s a (stepCore env s a)
    constructor
    · rw [heq2]
      exact hsf.2.2.2.2.2.2.2.2.2.2.2
    · rw [heq1, hsf.1, hsf.2.1]
  · intro env s env2 hres
    obtain ⟨h1, h2, h3, h4, h5, h6, h7, h8, h9, h10, h11, h12, h13, h14,
      h15, h16⟩ := reset_some_spec env s env2 hres
    refine ⟨h6, ?_, ?_⟩
    · intro hne
      rw [h16]
      simp [hne]
    · intro _hpos heq
      rw [h16]
      simp only [heq, beq_self_eq_true, if_true]
      exact updateNpcMood_ne env.current_mood env.rng

theorem mood_change_spec_witness :
    (Env.step envW1 Action.interact = Except.ok (trW2, envW2) ∧
     envW2.current_mood = envW1.current_mood) ∧
    ((mkEnv cfgW 0).reset = some (sW1, envW1) ∧
     0 < (mkEnv cfgW 0).mood_change_freq ∧
     ((mkEnv cfgW 0).episode_count + 1) % (mkEnv cfgW 0).mood_change_freq
        = 0 ∧
     envW1.current_mood ≠ (mkEnv cfgW 0).current_mood) :=
  have hstep : Env.step envW1 Action.interact = Except.ok (trW2, envW2) := by
    show Except.ok (stepFinish envW1 sW1 Action.interact
      (stepCore envW1 sW1 Action.interact)) = _
    norm_num [stepCore, stepFinish, isAdjacentToNpc, isValidPosition,
      envW1, sW1, trW2, envW2, sW2, actionToDelta]
  have hres : (mkEnv cfgW 0).reset = some (sW1, envW1) := by decide
  ⟨⟨hstep, (mood_change_spec.1 envW1 Action.interact trW2 envW2 hstep).1⟩,
   hres, by decide, by decide,
   (mood_change_spec.2 (mkEnv cfgW 0) sW1 envW1 hres).2.2 (by decide)
     (by decide)⟩

/-- C4: two environment instances constructed with identical
configuration and identical seed, driven through the same command
script of `reset()` and `step(action)` calls, produce identical
observable outputs (states, transitions, rewards, done flags, info) at
every step. -/
theorem deterministic_replay (cfg1 cfg2 : EnvConfig) (seed1 seed2 : Nat)
    (cmds : List Cmd) (hcfg : cfg1 = cfg2) (hseed : seed1 = seed2) :
    runCmds (mkEnv cfg1 seed1) cmds = runCmds (mkEnv cfg2 seed2) cmds := by
  subst hcfg
  subst hseed
  rfl

theorem deterministic_replay_witness :
    cfgW = cfgW ∧ (0 : Nat) = 0 ∧
    runCmds (mkEnv cfgW 0) cmdsW = runCmds (mkEnv cfgW 0) cmdsW :=
  ⟨rfl, rfl, deterministic_replay cfgW cfgW 0 0 cmdsW rfl rfl⟩

end ArousalValidation
